import Mathlib

/-!
Verification of the candle-proxy server (`src/server.py`).

The server is a stateless translator: it resolves a timeframe key to a
provider interval and a history period, delegates to an external fetch
collaborator, normalizes the returned tabular data into candle records,
and truncates the result to the caller's limit.  We embed the handler
`get_candles` shallowly: the fetched dataframe becomes an explicit
`FetchResult`, Python exceptions become an `Except PyExc` value that the
handler's `try`/`except` chain dispatches on, and `yf.download` becomes a
function parameter `fetch` returning `Except String FetchResult` (an
`Except.error` models a raised non-HTTP exception).
-/

namespace MatrixServer

/-- Python `str.strip()`: remove whitespace from both ends.  Implemented by
structural recursion on the character list so it evaluates in the kernel. -/
def pyStrip (s : String) : String :=
  ⟨((s.data.dropWhile Char.isWhitespace).reverse.dropWhile Char.isWhitespace).reverse⟩

/-- Python `str.upper()` (ASCII range, which covers every table key). -/
def pyUpper (s : String) : String :=
  ⟨s.data.map Char.toUpper⟩

/-- Line 43: `tf_key = timeframe.strip().upper()`. -/
def normKey (timeframe : String) : String :=
  pyUpper (pyStrip timeframe)

/-- One table cell: `none` models a missing value (pandas `NaN`). -/
abbrev Cell := Option Rat

/-- One row of the fetched dataframe, indexed by its timestamp
(`ts`, epoch seconds).  Column names follow the dataframe columns
`Open`, `High`, `Low`, `Close`, `Volume` read in `server.py` lines 91-95. -/
structure Row where
  ts : Int
  Open : Cell
  High : Cell
  Low : Cell
  Close : Cell
  Volume : Cell
deriving DecidableEq, Repr

/-- The fetch collaborator's tabular result.  `hasVolume` models whether the
`Volume` column is present at all (the `'Volume' in row` test on line 95);
column presence is a property of the whole table, so it lives here and not
on each row.  The MultiIndex flattening of lines 82-83 is a
pandas-structural step with no counterpart in this already-flat model. -/
structure FetchResult where
  hasVolume : Bool
  rows : List Row
deriving DecidableEq, Repr

/-- The predicate `df.dropna()` (line 85) uses to keep a row: no cell of the
row, across all columns present in the table, is `NaN`. -/
def rowKeep (hasVolume : Bool) (r : Row) : Bool :=
  r.Open.isSome && r.High.isSome && r.Low.isSome && r.Close.isSome &&
    (!hasVolume || r.Volume.isSome)

/-- `df = df.dropna()` (line 85): drop every row with a missing cell. -/
def dropna (df : FetchResult) : FetchResult :=
  { df with rows := df.rows.filter (rowKeep df.hasVolume) }

/-- Python `int()` on a real value: truncation toward zero. -/
def pyInt (q : Rat) : Int :=
  if 0 ≤ q then ⌊q⌋ else ⌈q⌉

/-- One element of the `candles` list (lines 89-96).  The record built from
one row: `time` is the timestamp in integer epoch milliseconds, `volume` is
the coerced volume, `0` when the `Volume` column is absent (or its value
`NaN`, unreachable for kept rows).  Applied only to rows kept by `dropna`,
where the four price cells are present, so `getD 0` never fires. -/
structure Candle where
  time : Int
  open_ : Rat
  high : Rat
  low : Rat
  close : Rat
  volume : Int
deriving DecidableEq, Repr

def toCandle (hasVolume : Bool) (r : Row) : Candle :=
  { time := r.ts * 1000
    open_ := r.Open.getD 0
    high := r.High.getD 0
    low := r.Low.getD 0
    close := r.Close.getD 0
    volume :=
      match hasVolume, r.Volume with
      | true, some v => pyInt v
      | _, _ => 0 }

/-- Lines 85-96: the drop-null step followed by the row-by-row candle
construction loop. -/
def normalize (df : FetchResult) : List Candle :=
  (dropna df).rows.map (toCandle df.hasVolume)

/-- Python `l[s:]` for an integer `s` (possibly negative). -/
def pySliceFrom {α : Type} (l : List α) (s : Int) : List α :=
  if s < 0 then l.drop ((l.length : Int) + s).toNat else l.drop s.toNat

/-- Line 102: `candles[-limit:] if len(candles) > limit else candles`. -/
def truncate (candles : List Candle) (limit : Int) : List Candle :=
  if (candles.length : Int) > limit then pySliceFrom candles (-limit) else candles

/-- Lines 21-30: the timeframe table, in source order. -/
def TIMEFRAME_MAP : List (String × String) :=
  [("Y", "3mo"), ("Q", "3mo"), ("M", "1mo"), ("W", "1wk"),
   ("D", "1d"), ("1H", "1h"), ("30M", "30m"), ("15M", "15m")]

/-- Line 47: `", ".join(TIMEFRAME_MAP.keys())` (dict keys in insertion
order). -/
def supported : String :=
  String.intercalate ", " (TIMEFRAME_MAP.map Prod.fst)

/-- Lines 55-64: the period policy on the normalized key. -/
def periodFor (tf_key : String) : String :=
  if tf_key ∈ (["Y", "Q", "M"] : List String) then "max"
  else if tf_key = "W" then "10y"
  else if tf_key = "D" then "2y"
  else if tf_key = "1H" then "730d"
  else "30d"

/-- Derived view of lines 43-64: the resolver from a raw timeframe string to
the (interval, period) pair, `none` when the normalized key is unmapped. -/
def resolution (timeframe : String) : Option (String × String) :=
  let tf_key := normKey timeframe
  (TIMEFRAME_MAP.lookup tf_key).map (fun interval => (interval, periodFor tf_key))

/-- An exception live inside the `try` block: an `HTTPException` (status,
detail) or any other exception carrying `str(e)`. -/
inductive PyExc
  | http (status : Nat) (detail : String)
  | generic (msg : String)
deriving DecidableEq, Repr

/-- The handler's outcome: a 200 JSON body or an error response produced
from a raised `HTTPException`. -/
inductive Response
  | ok (candles : List Candle)
  | err (status : Nat) (detail : String)
deriving DecidableEq, Repr

/-- The HTTP status of a response. -/
def Response.statusCode : Response → Nat
  | .ok _ => 200
  | .err s _ => s

/-- Lines 66-102, the body of the `try` block after the fetch call: the
emptiness check, drop-null, normalization loop, the minimum-bars gate and
the final truncation.  `fetched` is the outcome of `yf.download`. -/
def tryBody (fetched : Except String FetchResult) (ticker tf_key : String)
    (limit : Int) : Except PyExc (List Candle) :=
  match fetched with
  | .error msg => .error (.generic msg)
  | .ok df =>
    if df.rows.isEmpty then
      .error (.http 404 ("No data found for " ++ ticker))
    else
      let candles := normalize df
      if candles.length < 10 then
        .error (.http 422 ("Insufficient historical data for " ++ tf_key))
      else
        .ok (truncate candles limit)

/-- Lines 104-108: `except HTTPException as he: raise he` re-raises the
domain errors unchanged; `except Exception as e` maps anything else to a
500 with the message embedded. -/
def dispatch (r : Except PyExc (List Candle)) : Response :=
  match r with
  | .ok candles => .ok candles
  | .error (.http s d) => .err s d
  | .error (.generic msg) => .err 500 ("Data Source Error: " ++ msg)

/-- Lines 37-108: the whole `/api/candles` handler.  `fetch` stands for
`yf.download`, taking the ticker, period and interval actually passed on
lines 70-76.  The `if not interval` falsy test on line 46 coincides with
the `none` case because no table value is the empty string. -/
def get_candles (fetch : String → String → String → Except String FetchResult)
    (ticker timeframe : String) (limit : Int) : Response :=
  let tf_key := normKey timeframe
  match TIMEFRAME_MAP.lookup tf_key with
  | none =>
    .err 400 ("Invalid timeframe: " ++ timeframe ++ ". Supported: " ++ supported)
  | some interval =>
    dispatch (tryBody (fetch ticker (periodFor tf_key) interval) ticker tf_key limit)

example : resolution " d " = some ("1d", "2y") := by decide

example : pySliceFrom [1, 2, 3, 4, 5] (-2) = [4, 5] := by decide

example : pySliceFrom [1, 2, 3, 4, 5] 2 = [3, 4, 5] := by decide

example : supported = "Y, Q, M, W, D, 1H, 30M, 15M" := by decide

/-! Helper lemmas shared by the claim theorems. -/

/-- On a valid timeframe, the handler is the dispatched try-block applied to
the single fetch call made with the resolved period and interval. -/
theorem get_candles_valid (fetch : String → String → String → Except String FetchResult)
    (ticker timeframe : String) (limit : Int) (i : String)
    (hres : TIMEFRAME_MAP.lookup (normKey timeframe) = some i) :
    get_candles fetch ticker timeframe limit =
      dispatch (tryBody (fetch ticker (periodFor (normKey timeframe)) i)
        ticker (normKey timeframe) limit) := by
  simp only [get_candles]
  rw [hres]

/-- The handler reads its fetch argument only at the resolved
(ticker, period, interval) triple. -/
theorem get_candles_fetch_congr
    (f f' : String → String → String → Except String FetchResult)
    (ticker timeframe : String) (limit : Int) (k i : String)
    (hnorm : normKey timeframe = k)
    (hres : TIMEFRAME_MAP.lookup k = some i)
    (h : f ticker (periodFor k) i = f' ticker (periodFor k) i) :
    get_candles f ticker timeframe limit = get_candles f' ticker timeframe limit := by
  have hres' : TIMEFRAME_MAP.lookup (normKey timeframe) = some i := by rw [hnorm]; exact hres
  rw [get_candles_valid f ticker timeframe limit i hres',
      get_candles_valid f' ticker timeframe limit i hres', hnorm, h]

/-- An unmapped normalized key sends the lookup to `none`. -/
theorem lookup_none_of_not_mem (k : String) (h : k ∉ TIMEFRAME_MAP.map Prod.fst) :
    TIMEFRAME_MAP.lookup k = none := by
  rw [List.lookup_eq_none_iff]
  intro p hp
  simp only [bne_iff_ne, ne_eq, beq_iff_eq]
  intro hk
  exact h (List.mem_map.mpr ⟨p, hp, hk.symm⟩)

/-- On a valid timeframe with a successful, non-empty fetch yielding fewer
than 10 candles after normalization, the handler answers 422. -/
theorem handler_422_of_few
    (fetch : String → String → String → Except String FetchResult)
    (ticker timeframe i : String) (limit : Int) (df : FetchResult)
    (hres : TIMEFRAME_MAP.lookup (normKey timeframe) = some i)
    (hfetch : fetch ticker (periodFor (normKey timeframe)) i = .ok df)
    (hne : df.rows ≠ [])
    (hfew : (normalize df).length < 10) :
    get_candles fetch ticker timeframe limit =
      .err 422 ("Insufficient historical data for " ++ normKey timeframe) := by
  have hempty : df.rows.isEmpty = false := List.isEmpty_eq_false.mpr hne
  rw [get_candles_valid fetch ticker timeframe limit i hres, hfetch]
  simp only [tryBody, hempty, Bool.false_eq_true, if_false, if_pos hfew]
  rfl

/-! Sample data for witnesses. -/

/-- A fully populated row: timestamp `n`, unit prices, volume `v`. -/
def sampleRow (n : Int) (v : Rat) : Row :=
  ⟨n, some 1, some 1, some 1, some 1, some v⟩

/-- Ten valid rows with ascending timestamps. -/
def sampleDf : FetchResult :=
  ⟨true, [sampleRow 0 1, sampleRow 1 1, sampleRow 2 1, sampleRow 3 1, sampleRow 4 1,
          sampleRow 5 1, sampleRow 6 1, sampleRow 7 1, sampleRow 8 1, sampleRow 9 1]⟩

def fetchSample : String → String → String → Except String FetchResult :=
  fun _ _ _ => .ok sampleDf

def fetchEmpty : String → String → String → Except String FetchResult :=
  fun _ _ _ => .ok ⟨true, []⟩

def fetchOneRow : String → String → String → Except String FetchResult :=
  fun _ _ _ => .ok ⟨true, [sampleRow 0 1]⟩

def fetchAllNull : String → String → String → Except String FetchResult :=
  fun _ _ _ => .ok ⟨true, [⟨0, none, some 1, some 1, some 1, some 1⟩]⟩

def fetchFail : String → String → String → Except String FetchResult :=
  fun _ _ _ => .error "connection reset"

/-! Claim theorems. -/

/-- Claim C5: for every raw timeframe string whose trimmed, uppercased form
is not one of the eight table keys, the handler fails with a 400 error whose
detail contains the original (un-normalized) input and the comma-joined list
of the eight supported keys, and the result does not depend on the fetch
collaborator (it is never invoked). -/
theorem invalid_timeframe_400 (timeframe : String)
    (h : normKey timeframe ∉ TIMEFRAME_MAP.map Prod.fst) :
    ∀ (fetch fetch' : String → String → String → Except String FetchResult)
      (ticker : String) (limit : Int),
      get_candles fetch ticker timeframe limit =
        .err 400 ("Invalid timeframe: " ++ timeframe ++ ". Supported: " ++ supported) ∧
      supported = "Y, Q, M, W, D, 1H, 30M, 15M" ∧
      get_candles fetch ticker timeframe limit =
        get_candles fetch' ticker timeframe limit := by
  intro fetch fetch' ticker limit
  have hnone := lookup_none_of_not_mem _ h
  have hval : ∀ (f : String → String → String → Except String FetchResult),
      get_candles f ticker timeframe limit =
        .err 400 ("Invalid timeframe: " ++ timeframe ++ ". Supported: " ++ supported) := by
    intro f
    simp only [get_candles]
    rw [hnone]
  exact ⟨hval fetch, by decide, by rw [hval fetch, hval fetch']⟩

/-- Witness for C5 at timeframe `"XYZ"`. -/
theorem invalid_timeframe_400_witness :
    normKey "XYZ" ∉ TIMEFRAME_MAP.map Prod.fst ∧
    get_candles fetchSample "AAPL" "XYZ" 300 =
      .err 400 ("Invalid timeframe: " ++ "XYZ" ++ ". Supported: " ++ supported) :=
  ⟨by decide,
   (invalid_timeframe_400 "XYZ" (by decide) fetchSample fetchSample "AAPL" 300).1⟩

/-- Claim C6: when the fetch collaborator returns an empty result, the
handler fails with a 404 whose detail is exactly `No data found for
<ticker>`; the surrounding exception handling re-raises it unchanged rather
than converting it to a 500. -/
theorem empty_fetch_404
    (fetch : String → String → String → Except String FetchResult)
    (ticker timeframe i : String) (limit : Int) (df : FetchResult)
    (hres : TIMEFRAME_MAP.lookup (normKey timeframe) = some i)
    (hfetch : fetch ticker (periodFor (normKey timeframe)) i = .ok df)
    (hrows : df.rows = []) :
    get_candles fetch ticker timeframe limit =
      .err 404 ("No data found for " ++ ticker) := by
  rw [get_candles_valid fetch ticker timeframe limit i hres, hfetch]
  simp [tryBody, hrows, dispatch]

/-- Witness for C6: an empty fetch for `"MSFT"` at timeframe `"D"`. -/
theorem empty_fetch_404_witness :
    get_candles fetchEmpty "MSFT" "D" 300 = .err 404 ("No data found for " ++ "MSFT") :=
  empty_fetch_404 fetchEmpty "MSFT" "D" "1d" 300 ⟨true, []⟩ (by decide) rfl rfl

/-- Claim C7: a non-empty fetch result yielding fewer than 10 candles after
the drop-null step and normalization makes the handler fail with a 422 whose
detail is `Insufficient historical data for <tf_key>` for the normalized
key. -/
theorem insufficient_data_422
    (fetch : String → String → String → Except String FetchResult)
    (ticker timeframe i : String) (limit : Int) (df : FetchResult)
    (hres : TIMEFRAME_MAP.lookup (normKey timeframe) = some i)
    (hfetch : fetch ticker (periodFor (normKey timeframe)) i = .ok df)
    (hne : df.rows ≠ [])
    (hfew : (normalize df).length < 10) :
    get_candles fetch ticker timeframe limit =
      .err 422 ("Insufficient historical data for " ++ normKey timeframe) :=
  handler_422_of_few fetch ticker timeframe i limit df hres hfetch hne hfew

/-- Witness for C7: a one-row fetch at timeframe `" d "` (normalizing to
`D`). -/
theorem insufficient_data_422_witness :
    get_candles fetchOneRow "AAPL" " d " 300 =
      .err 422 ("Insufficient historical data for " ++ normKey " d ") :=
  insufficient_data_422 fetchOneRow "AAPL" " d " "1d" 300 ⟨true, [sampleRow 0 1]⟩
    (by decide) rfl (by decide) (by decide)

/-- Claim C8: a non-HTTP exception raised by the fetch is reported as a 500
with `Data Source Error: <message>` embedding that exception's message, and
the handler always produces a response whose status is one of 200, 400,
404, 422, 500. -/
theorem generic_error_500_and_total
    (fetch : String → String → String → Except String FetchResult)
    (ticker timeframe i msg : String) (limit : Int)
    (hres : TIMEFRAME_MAP.lookup (normKey timeframe) = some i)
    (hfetch : fetch ticker (periodFor (normKey timeframe)) i = .error msg) :
    get_candles fetch ticker timeframe limit =
      .err 500 ("Data Source Error: " ++ msg) ∧
    ∀ (f : String → String → String → Except String FetchResult)
      (t tf : String) (l : Int),
      (get_candles f t tf l).statusCode ∈ ([200, 400, 404, 422, 500] : List Nat) := by
  constructor
  · rw [get_candles_valid fetch ticker timeframe limit i hres, hfetch]
    rfl
  · intro f t tf l
    simp only [get_candles]
    split
    · simp [Response.statusCode]
    · simp only [tryBody]
      split
      · simp [dispatch, Response.statusCode]
      · split
        · simp [dispatch, Response.statusCode]
        · split
          · simp [dispatch, Response.statusCode]
          · simp [dispatch, Response.statusCode]

/-- Witness for C8: a fetch raising a generic exception at timeframe
`"W"`. -/
theorem generic_error_500_and_total_witness :
    get_candles fetchFail "AAPL" "W" 300 =
      .err 500 ("Data Source Error: " ++ "connection reset") :=
  (generic_error_500_and_total fetchFail "AAPL" "W" "1wk" "connection reset" 300
    (by decide) rfl).1

/-- Claim C10: a non-empty fetch result in which every row has at least one
missing cell fails with 422 InsufficientData (the emptiness check runs
before the drop-null step, so the 404 branch is not taken). -/
theorem all_null_rows_422
    (fetch : String → String → String → Except String FetchResult)
    (ticker timeframe i : String) (limit : Int) (df : FetchResult)
    (hres : TIMEFRAME_MAP.lookup (normKey timeframe) = some i)
    (hfetch : fetch ticker (periodFor (normKey timeframe)) i = .ok df)
    (hne : df.rows ≠ [])
    (hnull : ∀ r ∈ df.rows, rowKeep df.hasVolume r = false) :
    get_candles fetch ticker timeframe limit =
      .err 422 ("Insufficient historical data for " ++ normKey timeframe) := by
  have hnil : (dropna df).rows = [] := by
    simp only [dropna]
    exact List.filter_eq_nil_iff.mpr (fun a ha => by simp [hnull a ha])
  have hfew : (normalize df).length < 10 := by
    simp [normalize, hnil]
  exact handler_422_of_few fetch ticker timeframe i limit df hres hfetch hne hfew

/-- Witness for C10: one row with a missing `Open` cell at timeframe
`"15m"`. -/
theorem all_null_rows_422_witness :
    get_candles fetchAllNull "AAPL" "15m" 300 =
      .err 422 ("Insufficient historical data for " ++ normKey "15m") :=
  all_null_rows_422 fetchAllNull "AAPL" "15m" "15m" 300
    ⟨true, [⟨0, none, some 1, some 1, some 1, some 1⟩]⟩
    (by decide) rfl (by decide) (by decide)

/-- The §4.1 table of the spec: (key, interval, period) triples, written
from the spec's words to be compared with the resolver derived from the
source. -/
def spec41Table : List (String × String × String) :=
  [("Y", "3mo", "max"), ("Q", "3mo", "max"), ("M", "1mo", "max"), ("W", "1wk", "10y"),
   ("D", "1d", "2y"), ("1H", "1h", "730d"), ("30M", "30m", "30d"), ("15M", "15m", "30d")]

/-- Claim C1: every raw timeframe string normalizing to one of the eight
keys resolves to exactly the §4.1 (interval, period) pair of that key, and
the handler consults the fetch collaborator only at that resolved pair. -/
theorem resolution_table_correct (timeframe k i p : String)
    (hnorm : normKey timeframe = k)
    (hmem : (k, i, p) ∈ spec41Table) :
    resolution timeframe = some (i, p) ∧
    ∀ (fetch fetch' : String → String → String → Except String FetchResult)
      (ticker : String) (limit : Int),
      fetch ticker p i = fetch' ticker p i →
      get_candles fetch ticker timeframe limit =
        get_candles fetch' ticker timeframe limit := by
  fin_cases hmem <;> refine ⟨by simp only [resolution, hnorm]; decide, ?_⟩ <;>
    intro fetch fetch' ticker limit h <;>
    exact get_candles_fetch_congr fetch fetch' ticker timeframe limit _ _ hnorm
      (by decide) h

/-- Witness for C1 at raw input `" 1h "`. -/
theorem resolution_table_correct_witness :
    normKey " 1h " = "1H" ∧ ("1H", "1h", "730d") ∈ spec41Table ∧
    resolution " 1h " = some ("1h", "730d") :=
  ⟨by decide, by decide,
   (resolution_table_correct " 1h " "1H" "1h" "730d" (by decide) (by decide)).1⟩

/-- The ten candles obtained from the sample fetch result. -/
def tenCandles : List Candle := normalize sampleDf

/-- Counterexample to C2 as stated: at limit `K = 0` the truncation returns
the whole series, so its length is 10, not `min 10 0 = 0`. -/
theorem truncate_min_counterexample :
    10 ≤ tenCandles.length ∧
    ((truncate tenCandles 0).length : Int) ≠ min (tenCandles.length : Int) 0 := by
  decide

/-- Claim C2 (amended): for a series of length `L ≥ 10` and a POSITIVE
integer limit `K`, the result has length `min L K`; it is the series
unchanged when `L ≤ K` and the last `K` elements in original order when
`L > K`.  (At `K ≤ 0` the slicing rule behaves differently; see C9.) -/
theorem truncate_min_positive (candles : List Candle) (K : Int)
    (hL : 10 ≤ candles.length) (hK : 1 ≤ K) :
    ((truncate candles K).length : Int) = min (candles.length : Int) K ∧
    ((candles.length : Int) ≤ K → truncate candles K = candles) ∧
    (K < (candles.length : Int) →
      truncate candles K = candles.drop (((candles.length : Int) - K).toNat)) := by
  refine ⟨?_, ?_, ?_⟩
  · by_cases hgt : (candles.length : Int) > K
    · have h1 : truncate candles K =
          candles.drop ((candles.length : Int) + -K).toNat := by
        unfold truncate pySliceFrom
        rw [if_pos hgt, if_pos (by omega : -K < 0)]
      rw [h1, List.length_drop]
      omega
    · unfold truncate
      rw [if_neg hgt]
      omega
  · intro hle
    unfold truncate
    rw [if_neg (by omega)]
  · intro hlt
    unfold truncate pySliceFrom
    rw [if_pos (by omega : (candles.length : Int) > K), if_pos (by omega : -K < 0)]
    congr 1

/-- Witness for C2 (amended) at the ten sample candles and limit 3. -/
theorem truncate_min_positive_witness :
    10 ≤ tenCandles.length ∧ (1 : Int) ≤ 3 ∧
    (((truncate tenCandles 3).length : Int) = min (tenCandles.length : Int) 3 ∧
     ((tenCandles.length : Int) ≤ 3 → truncate tenCandles 3 = tenCandles) ∧
     ((3 : Int) < (tenCandles.length : Int) →
       truncate tenCandles 3 = tenCandles.drop (((tenCandles.length : Int) - 3).toNat))) :=
  ⟨by decide, by decide, truncate_min_positive tenCandles 3 (by decide) (by decide)⟩

/-- Claim C9: with `limit = 0` and at least 10 surviving candles the handler
returns the entire series, and with `limit = K < 0` it returns the series
with its first `−K` elements removed, of length `max 0 (L + K)`: the guard
`L > limit` always holds and the slice starts at index `−K`. -/
theorem nonpositive_limit_behavior
    (fetch : String → String → String → Except String FetchResult)
    (ticker timeframe i : String) (df : FetchResult)
    (hres : TIMEFRAME_MAP.lookup (normKey timeframe) = some i)
    (hfetch : fetch ticker (periodFor (normKey timeframe)) i = .ok df)
    (hne : df.rows ≠ [])
    (hlen : 10 ≤ (normalize df).length) :
    get_candles fetch ticker timeframe 0 = .ok (normalize df) ∧
    ∀ K : Int, K < 0 →
      get_candles fetch ticker timeframe K = .ok ((normalize df).drop (-K).toNat) ∧
      (((normalize df).drop (-K).toNat).length : Int) =
        max 0 ((normalize df).length + K) := by
  have hempty : df.rows.isEmpty = false := List.isEmpty_eq_false.mpr hne
  have hok : ∀ L : Int, get_candles fetch ticker timeframe L =
      .ok (truncate (normalize df) L) := by
    intro L
    rw [get_candles_valid fetch ticker timeframe L i hres, hfetch]
    simp only [tryBody, hempty, Bool.false_eq_true, if_false,
      if_neg (by omega : ¬ (normalize df).length < 10)]
    rfl
  constructor
  · rw [hok 0]
    unfold truncate pySliceFrom
    rw [if_pos (by omega : ((normalize df).length : Int) > 0)]
    norm_num
  · intro K hK
    constructor
    · rw [hok K]
      unfold truncate pySliceFrom
      rw [if_pos (by omega : ((normalize df).length : Int) > K),
          if_neg (by omega : ¬ -K < 0)]
    · rw [List.length_drop]
      omega

/-- Witness for C9 at the sample fetch, timeframe `"q"`, limits 0 and −3. -/
theorem nonpositive_limit_behavior_witness :
    get_candles fetchSample "AAPL" "q" 0 = .ok (normalize sampleDf) ∧
    get_candles fetchSample "AAPL" "q" (-3) =
      .ok ((normalize sampleDf).drop (-(-3 : Int)).toNat) := by
  have h := nonpositive_limit_behavior fetchSample "AAPL" "q" "3mo" sampleDf
    (by decide) rfl (by decide) (by decide)
  exact ⟨h.1, (h.2 (-3) (by decide)).1⟩

/-- The row of the C3 counterexample: all four price cells present, volume
`NaN`. -/
def nanVolRow : Row := ⟨0, some 1, some 2, some 1, some 1, none⟩

/-- The C3 counterexample table: the `Volume` column is present. -/
def nanVolDf : FetchResult := ⟨true, [nanVolRow]⟩

/-- Counterexample to C3 as stated: a row with all four price cells present
but `NaN` volume is removed by `dropna` (which looks at every column, not
just the prices), so the normalizer produces no candle for it at all. -/
theorem nan_volume_counterexample :
    nanVolDf.hasVolume = true ∧
    nanVolRow ∈ nanVolDf.rows ∧
    nanVolRow.Open.isSome = true ∧ nanVolRow.High.isSome = true ∧
    nanVolRow.Low.isSome = true ∧ nanVolRow.Close.isSome = true ∧
    nanVolRow.Volume = none ∧
    nanVolRow ∉ (dropna nanVolDf).rows ∧
    normalize nanVolDf = [] := by decide

/-- Claim C3 (amended): a row whose four price cells are present but whose
volume is `NaN` is dropped by the drop-null step whenever the `Volume`
column is present in the table; only when the `Volume` column is absent is
the row kept and its candle produced with volume 0. -/
theorem nan_volume_row_fate (df : FetchResult) (r : Row)
    (hmem : r ∈ df.rows)
    (hO : r.Open.isSome = true) (hH : r.High.isSome = true)
    (hL : r.Low.isSome = true) (hC : r.Close.isSome = true)
    (hV : r.Volume = none) :
    (df.hasVolume = true → r ∉ (dropna df).rows) ∧
    (df.hasVolume = false →
      toCandle df.hasVolume r ∈ normalize df ∧
      (toCandle df.hasVolume r).volume = 0) := by
  constructor
  · intro hvol hin
    simp only [dropna] at hin
    have := (List.mem_filter.mp hin).2
    simp [rowKeep, hvol, hV] at this
  · intro hvol
    have hkeep : rowKeep df.hasVolume r = true := by
      simp [rowKeep, hvol, hO, hH, hL, hC]
    constructor
    · simp only [normalize, dropna]
      exact List.mem_map_of_mem _ (List.mem_filter.mpr ⟨hmem, hkeep⟩)
    · simp [toCandle, hvol]

/-- The C3 witness row and table: no `Volume` column at all. -/
def noVolRow : Row := ⟨0, some 1, some 1, some 1, some 1, none⟩

def noVolDf : FetchResult := ⟨false, [noVolRow]⟩

/-- Witness for C3 (amended) at a table without a `Volume` column. -/
theorem nan_volume_row_fate_witness :
    (noVolDf.hasVolume = true → noVolRow ∉ (dropna noVolDf).rows) ∧
    (noVolDf.hasVolume = false →
      toCandle noVolDf.hasVolume noVolRow ∈ normalize noVolDf ∧
      (toCandle noVolDf.hasVolume noVolRow).volume = 0) :=
  nan_volume_row_fate noVolDf noVolRow (by decide) (by decide) (by decide)
    (by decide) (by decide) rfl

/-- The C4 counterexample: ten fully populated rows whose timestamps
descend and whose first volume is negative. -/
def unsortedDf : FetchResult :=
  ⟨true, [sampleRow 9 (-5), sampleRow 8 1, sampleRow 7 1, sampleRow 6 1, sampleRow 5 1,
          sampleRow 4 1, sampleRow 3 1, sampleRow 2 1, sampleRow 1 1, sampleRow 0 1]⟩

/-- Counterexample to C4 as stated: nothing in the handler sorts the rows
or clamps volumes, so ten valid rows can produce candles that are neither
ascending in time nor non-negative in volume. -/
theorem normalize_valid_rows_counterexample :
    (∀ r ∈ unsortedDf.rows, rowKeep unsortedDf.hasVolume r = true) ∧
    10 ≤ unsortedDf.rows.length ∧
    ¬ (normalize unsortedDf).Chain' (fun a b => a.time < b.time) ∧
    ¬ (∀ c ∈ normalize unsortedDf, 0 ≤ c.volume) := by
  refine ⟨by decide, by decide, ?_, by decide⟩
  intro hchain
  exact absurd (List.chain'_cons.mp hchain).1 (by decide)

/-- Claim C4 (amended): a fetch result of `N ≥ 10` fully populated rows
whose timestamps strictly ascend and whose present volume values are
non-negative normalizes to exactly `N` candles, strictly ascending in
`time`, each with `volume ≥ 0`, and with `time` equal to the row timestamp
converted to integer epoch milliseconds. -/
theorem normalize_valid_rows (df : FetchResult)
    (hvalid : ∀ r ∈ df.rows, rowKeep df.hasVolume r = true)
    (hN : 10 ≤ df.rows.length)
    (hasc : df.rows.Chain' (fun a b => a.ts < b.ts))
    (hvol : ∀ r ∈ df.rows, (0 : Rat) ≤ r.Volume.getD 0) :
    (normalize df).length = df.rows.length ∧
    (normalize df).Chain' (fun a b => a.time < b.time) ∧
    (∀ c ∈ normalize df, 0 ≤ c.volume) ∧
    (normalize df).map Candle.time = df.rows.map (fun r => r.ts * 1000) := by
  have hfil : df.rows.filter (rowKeep df.hasVolume) = df.rows :=
    List.filter_eq_self.mpr hvalid
  have hnorm : normalize df = df.rows.map (toCandle df.hasVolume) := by
    simp only [normalize, dropna, hfil]
  refine ⟨?_, ?_, ?_, ?_⟩
  · rw [hnorm, List.length_map]
  · rw [hnorm, List.chain'_map]
    refine hasc.imp ?_
    intro a b hab
    simp only [toCandle]
    omega
  · intro c hc
    rw [hnorm] at hc
    obtain ⟨r, hr, rfl⟩ := List.mem_map.mp hc
    have h0 := hvol r hr
    simp only [toCandle]
    cases hb : df.hasVolume with
    | false => simp
    | true =>
      cases hv : r.Volume with
      | none => simp
      | some v =>
        rw [hv] at h0
        simp only [Option.getD_some] at h0
        simp only [pyInt, if_pos h0]
        exact Int.floor_nonneg.mpr h0
  · rw [hnorm, List.map_map]
    exact List.map_congr_left (fun a _ => rfl)

/-- Witness for C4 (amended) at the sample fetch result. -/
theorem normalize_valid_rows_witness :
    (normalize sampleDf).length = sampleDf.rows.length ∧
    (normalize sampleDf).Chain' (fun a b => a.time < b.time) ∧
    (∀ c ∈ normalize sampleDf, 0 ≤ c.volume) ∧
    (normalize sampleDf).map Candle.time = sampleDf.rows.map (fun r => r.ts * 1000) :=
  normalize_valid_rows sampleDf (by decide) (by decide)
    (by norm_num [sampleDf, sampleRow, List.chain'_cons]) (by decide)

end MatrixServer
